import Mathlib

/-!
Verification of the PetraGlobal Energy dashboard (src/script.js) against its
specification.  The browser script is embedded shallowly: JavaScript numbers
appearing in this flow are exact rationals or NaN (from a failed parse),
`Math.random()` draws are explicit rational parameters in [0,1), the
IndexedDB "Compras" store is a list of purchase records carried as explicit
state, and DOM rendering is dropped (only the data each operation computes is
kept).
-/

/-- A JavaScript number as it occurs in this flow: either an exact rational
value or NaN (produced by `Number.parseInt` on non-numeric input). -/
inductive JSNum where
  | nan : JSNum
  | num : ℚ → JSNum
deriving DecidableEq

/-- JavaScript multiplication: NaN is absorbing. -/
def JSNum.mul : JSNum → JSNum → JSNum
  | JSNum.num a, JSNum.num b => JSNum.num (a * b)
  | _, _ => JSNum.nan

/-- The JavaScript comparison `x <= 0`: false when `x` is NaN (every
comparison with NaN is false in JavaScript). -/
def JSNum.leZero : JSNum → Bool
  | JSNum.nan => false
  | JSNum.num a => decide (a ≤ 0)

theorem JSNum.mul_comutativo (a b : JSNum) : JSNum.mul a b = JSNum.mul b a := by
  cases a <;> cases b <;> simp [JSNum.mul, mul_comm]

/-- Digit run to a natural number, as `parseInt` accumulates it. -/
def digitosParaNat (ds : List Char) : Nat :=
  ds.foldl (fun acc c => acc * 10 + (c.toNat - 48)) 0

/-- Model of `Number.parseInt(s)` on the decimal strings a quantity input
field produces: skip leading whitespace, read an optional sign and then the
leading run of decimal digits; `none` stands for NaN (no digits found).
Radix prefixes such as `0x` are not modelled. -/
def parseIntJS (s : String) : Option Int :=
  let cs := s.data.dropWhile Char.isWhitespace
  match cs with
  | '-' :: resto =>
      let ds := resto.takeWhile Char.isDigit
      if ds.isEmpty then none else some (-(digitosParaNat ds : Int))
  | '+' :: resto =>
      let ds := resto.takeWhile Char.isDigit
      if ds.isEmpty then none else some ((digitosParaNat ds : Int))
  | resto =>
      let ds := resto.takeWhile Char.isDigit
      if ds.isEmpty then none else some ((digitosParaNat ds : Int))

/-- The quantity as the handler holds it: `Number.parseInt` yields NaN or an
integer value. -/
def quantidadeJS (s : String) : JSNum :=
  match parseIntJS s with
  | none => JSNum.nan
  | some k => JSNum.num (k : ℚ)

/-- `String.prototype.trim`, written over the character list. -/
def trimJS (s : String) : String :=
  ⟨((s.data.dropWhile Char.isWhitespace).reverse.dropWhile Char.isWhitespace).reverse⟩

/-- `String.prototype.toUpperCase` on the ASCII symbols this form handles. -/
def paraMaiusculas (s : String) : String :=
  ⟨s.data.map Char.toUpper⟩

/-- The symbol as the submit handler normalises it:
`document.getElementById("simbolo").value.trim().toUpperCase()`. -/
def simboloForm (s : String) : String :=
  paraMaiusculas (trimJS s)

/-- The `precosAtuais` global: the current (last stored) price per tracked
symbol. -/
structure PrecosAtuais where
  brent : ℚ
  wti : ℚ
  opec : ℚ
deriving DecidableEq

/-- Initial contents of `precosAtuais`. -/
def precosIniciais : PrecosAtuais := ⟨85.5, 82.75, 84.2⟩

/-- Lookup `precosAtuais[simbolo]` for the three tracked symbols. -/
def PrecosAtuais.get (c : PrecosAtuais) (s : String) : ℚ :=
  if s = "BRENT" then c.brent else if s = "WTI" then c.wti else c.opec

/-- One simulated quote, as `simularDadosPrecos` builds it. -/
structure Preco where
  simbolo : String
  nome : String
  preco : ℚ
  variacao : ℚ
  moeda : String

/-- The new price one tick produces from the prior price and one
`Math.random()` draw `r`:
`variacao = (r - 0.5) * 1; novoPreco = precoAnterior * (1 + variacao / 100)`. -/
def simularPrecoNovo (precoAnterior r : ℚ) : ℚ :=
  precoAnterior * (1 + ((r - 0.5) * 1) / 100)

/-- The quote record `simularDadosPrecos` returns for one symbol. -/
def simularQuote (simbolo nome : String) (precoAnterior r : ℚ) : Preco :=
  { simbolo := simbolo
    nome := nome
    preco := simularPrecoNovo precoAnterior r
    variacao := (simularPrecoNovo precoAnterior r - precoAnterior) / precoAnterior * 100
    moeda := "USD" }

/-- `simularDadosPrecos`: one tick of the simulator, mapping over the tracked
symbols with one random draw each. -/
def simularDadosPrecos (c : PrecosAtuais) (rB rW rO : ℚ) : List Preco :=
  [simularQuote "BRENT" "Brent Crude Oil" c.brent rB,
   simularQuote "WTI" "West Texas Intermediate" c.wti rW,
   simularQuote "OPEC" "OPEC Basket" c.opec rO]

/-- `atualizarSparkline`, restricted to the rolling window it maintains for
one symbol: initialise a missing entry to `[]`, push the new price, and if
the length now exceeds 20, shift off the oldest (front) entry. -/
def atualizarSparkline (hist : Option (List ℚ)) (preco : ℚ) : List ℚ :=
  let h := hist.getD []
  let h2 := h ++ [preco]
  if 20 < h2.length then h2.tail else h2

/-- A record of the IndexedDB "Compras" store.  `dataCompra` is the purchase
timestamp (epoch milliseconds behind the stored ISO string). -/
structure Compra where
  simbolo : String
  quantidade : JSNum
  precoCompra : ℚ
  valorTotal : JSNum
  dataCompra : Nat
deriving DecidableEq

/-- The application state the purchase workflow touches: the contents of the
"Compras" object store. -/
structure EstadoApp where
  compras : List Compra
deriving DecidableEq

/-- User-visible outcome of one submission of `form-compra`. -/
inductive Resultado where
  | erroValidacao : Resultado
  | erroProcessamento : Resultado
  | sucesso : Resultado
deriving DecidableEq

/-- JavaScript `x || d` for the numeric lookup in `obterPrecoAtual`: fall
back to the default when the property is missing or its value is falsy. -/
def jsOrPadrao (x : Option ℚ) (d : ℚ) : ℚ :=
  match x with
  | some p => if p = 0 then d else p
  | none => d

/-- `obterPrecoAtual`: the simulated purchase-time price.  It builds a fresh
literal of three independently perturbed base prices and looks the symbol up
with an `|| 80.0` fallback.  The `precosAtuais` cache is in scope in the
script but never read here; it is passed to make that explicit. -/
def obterPrecoAtual (precosAtuais : PrecosAtuais) (simbolo : String)
    (rB rW rO : ℚ) : ℚ :=
  let precos : String → Option ℚ := fun s =>
    if s = "BRENT" then some (85.5 + (rB - 0.5) * 2)
    else if s = "WTI" then some (82.75 + (rW - 0.5) * 2)
    else if s = "OPEC" then some (84.2 + (rO - 0.5) * 2)
    else none
  jsOrPadrao (precos simbolo) 80.0

/-- `salvarCompra`: append-only add to the "Compras" store.  A failed
IndexedDB write is only logged, so it leaves the store unchanged while the
handler continues (`falhaGravacao` models the store signalling that
failure). -/
def salvarCompra (st : EstadoApp) (compra : Compra) (falhaGravacao : Bool) :
    EstadoApp :=
  if falhaGravacao then st else ⟨st.compras ++ [compra]⟩

/-- The `form-compra` submit handler.  Validation (`!simbolo ||
quantidade <= 0`) happens first; on the success path the handler fetches the
simulated current price, builds the purchase record, saves it, and then runs
the suggestion/refresh steps.  `falhaPreco` models the awaited price fetch
rejecting (before any write); `falhaSugestao` models any step after
`salvarCompra` (suggestion generation, form reset, history refresh)
throwing — both land in the handler's catch, which shows a blocking error. -/
def processarCompra (st : EstadoApp) (simboloBruto quantidadeBruta : String)
    (precosAtuais : PrecosAtuais) (rB rW rO : ℚ) (agora : Nat)
    (falhaPreco falhaGravacao falhaSugestao : Bool) : EstadoApp × Resultado :=
  let simbolo := simboloForm simboloBruto
  let quantidade := quantidadeJS quantidadeBruta
  if decide (simbolo = "") || JSNum.leZero quantidade then
    (st, Resultado.erroValidacao)
  else if falhaPreco then
    (st, Resultado.erroProcessamento)
  else
    let precoAtual := obterPrecoAtual precosAtuais simbolo rB rW rO
    let valorTotal := JSNum.mul (JSNum.num precoAtual) quantidade
    let compra : Compra :=
      { simbolo := simbolo
        quantidade := quantidade
        precoCompra := precoAtual
        valorTotal := valorTotal
        dataCompra := agora }
    let st2 := salvarCompra st compra falhaGravacao
    if falhaSugestao then (st2, Resultado.erroProcessamento)
    else (st2, Resultado.sucesso)

/-- `carregarHistorico`'s ordering step: the records read from the store are
sorted with the comparator `(a, b) => new Date(b.dataCompra) - new
Date(a.dataCompra)`, i.e. by timestamp descending. -/
def carregarHistorico (compras : List Compra) : List Compra :=
  compras.mergeSort (fun a b => decide (b.dataCompra ≤ a.dataCompra))

/-- The confidence percentage of `simularRespostaIA`:
`Math.floor(Math.random() * 20) + 70`. -/
def confiancaIA (r : ℚ) : ℤ :=
  ⌊r * 20⌋ + 70

/-- The trend label of `simularRespostaIA`:
`Math.random() > 0.5 ? "alta" : "baixa"`. -/
def tendenciaIA (r : ℚ) : String :=
  if (0.5 : ℚ) < r then "alta" else "baixa"

/-- Rendering of `x.toFixed(2)` for the non-negative amounts this dashboard
formats (round to cents, print with two decimals). -/
def paraFixo2 (q : ℚ) : String :=
  let c : ℤ := ⌊q * 100 + 1 / 2⌋
  toString (c / 100) ++ "." ++
    (if c % 100 < 10 then "0" else "") ++ toString (c % 100)

/-- `toFixed` lifted to a JavaScript number: NaN prints as "NaN". -/
def renderJSNum : JSNum → String
  | JSNum.nan => "NaN"
  | JSNum.num q => paraFixo2 q

/-- Plain template rendering of the quantity (an integer or NaN in this
flow), as `${quantidade}` prints it. -/
def renderQuantidade : JSNum → String
  | JSNum.nan => "NaN"
  | JSNum.num q => toString q.num

/-- The sentence template of `simularRespostaIA`, with the computed
confidence and trend spliced in (the JavaScript template literal written as
explicit concatenation). -/
def montarSugestao (simbolo : String) (quantidade : JSNum) (preco : ℚ)
    (confianca : ℤ) (tendencia : String) : String :=
  let valorTotal := JSNum.mul quantidade (JSNum.num preco)
  "Baseado na análise de mercado com " ++ toString confianca ++
    "% de confiança, sua compra de " ++ renderQuantidade quantidade ++
    " barris de " ++ simbolo ++ " por $" ++ paraFixo2 preco ++
    " (total: $" ++ renderJSNum valorTotal ++ ") está em um momento " ++
    (if tendencia = "alta" then "favorável" else "de atenção") ++
    ". A tendência atual indica " ++ tendencia ++
    " nos próximos 7-14 dias. Recomendamos " ++
    (if tendencia = "alta" then "manter a posição e considerar aumentar"
     else "monitorar de perto e considerar diversificar") ++
    " seu portfólio. " ++
    (if tendencia = "alta" then "📈 Perspectiva positiva para ganhos."
     else "📊 Mantenha-se atento às flutuações.")

/-- `simularRespostaIA`: after a fixed simulated delay, draw the trend
(`rT`) and the confidence (`rC`) and return the templated sentence. -/
def simularRespostaIA (simbolo : String) (quantidade : JSNum) (preco : ℚ)
    (rT rC : ℚ) : String :=
  montarSugestao simbolo quantidade preco (confiancaIA rC) (tendenciaIA rT)

/-! ## Helper lemmas -/

theorem leZero_quantidade_iff (qb : String) :
    JSNum.leZero (quantidadeJS qb) = true ↔
      ∃ k, parseIntJS qb = some k ∧ k ≤ 0 := by
  unfold quantidadeJS
  rcases hp : parseIntJS qb with _ | k
  · simp [JSNum.leZero]
  · simp [JSNum.leZero]

theorem get_BRENT (c : PrecosAtuais) : c.get "BRENT" = c.brent := by
  simp [PrecosAtuais.get]

theorem get_WTI (c : PrecosAtuais) : c.get "WTI" = c.wti := by
  simp [PrecosAtuais.get]

theorem get_OPEC (c : PrecosAtuais) : c.get "OPEC" = c.opec := by
  simp [PrecosAtuais.get]

theorem simularPrecoNovo_limite (prior r : ℚ) (hp : 0 < prior)
    (h0 : 0 ≤ r) (h1 : r < 1) :
    |simularPrecoNovo prior r - prior| ≤ 5 / 1000 * prior := by
  have h05 : (0.5 : ℚ) = 1 / 2 := by norm_num
  have he : simularPrecoNovo prior r - prior = prior * (r - 1 / 2) / 100 := by
    unfold simularPrecoNovo
    rw [h05]
    ring
  rw [he, abs_le]
  constructor
  · nlinarith [mul_nonneg hp.le h0]
  · nlinarith [mul_nonneg hp.le (sub_nonneg.mpr h1.le)]

/-! ## Claim theorems -/

/-- Claim C3: the rolling sparkline window never exceeds 20 entries, and a
push onto a full window drops the oldest (front) entry first. -/
theorem atualizarSparkline_janela (hist : Option (List ℚ)) (preco : ℚ)
    (h : (hist.getD []).length ≤ 20) :
    (atualizarSparkline hist preco).length ≤ 20 ∧
    ((hist.getD []).length = 20 →
      atualizarSparkline hist preco = (hist.getD []).tail ++ [preco]) := by
  have hdef : atualizarSparkline hist preco =
      (if 20 < ((hist.getD []) ++ [preco]).length
       then ((hist.getD []) ++ [preco]).tail
       else ((hist.getD []) ++ [preco])) := rfl
  rw [hdef]
  generalize (hist.getD []) = l at h ⊢
  rcases l with _ | ⟨a, t⟩
  · simp
  · by_cases h20 : (20 : Nat) < ((a :: t) ++ [preco]).length
    · rw [if_pos h20]
      refine ⟨?_, fun _ => ?_⟩
      · simp only [List.cons_append, List.tail_cons, List.length_append,
          List.length_cons, List.length_nil] at h h20 ⊢
        omega
      · rfl
    · rw [if_neg h20]
      refine ⟨?_, fun heq => ?_⟩
      · simp only [List.cons_append, List.length_append, List.length_cons,
          List.length_nil] at h h20 ⊢
        omega
      · exfalso
        simp only [List.cons_append, List.length_append, List.length_cons,
          List.length_nil] at h20 heq
        omega

theorem atualizarSparkline_janela_testemunha :
    ((some (List.replicate 20 (1 : ℚ))).getD []).length ≤ 20 ∧
    ((atualizarSparkline (some (List.replicate 20 (1 : ℚ))) 2).length ≤ 20 ∧
     (((some (List.replicate 20 (1 : ℚ))).getD []).length = 20 →
       atualizarSparkline (some (List.replicate 20 (1 : ℚ))) 2 =
         ((some (List.replicate 20 (1 : ℚ))).getD []).tail ++ [2])) :=
  ⟨by decide, atualizarSparkline_janela (some (List.replicate 20 (1 : ℚ))) 2
    (by decide)⟩

/-- Claim C9: the purchase-time price fetch does not read the simulator's
`precosAtuais` cache; for any two cache states and the same random draws it
returns the same value. -/
theorem obterPrecoAtual_naoInterfere (c1 c2 : PrecosAtuais) (simbolo : String)
    (rB rW rO : ℚ) :
    obterPrecoAtual c1 simbolo rB rW rO = obterPrecoAtual c2 simbolo rB rW rO :=
  rfl

/-- Claim C6: `carregarHistorico` displays the stored purchases sorted by
purchase timestamp descending (most recent first), and displays exactly the
stored records (a permutation). -/
theorem carregarHistorico_ordenado (compras : List Compra) :
    List.Pairwise (fun a b => b.dataCompra ≤ a.dataCompra)
      (carregarHistorico compras) ∧
    (carregarHistorico compras).Perm compras := by
  constructor
  · have h := @List.sorted_mergeSort Compra
      (fun a b => decide (b.dataCompra ≤ a.dataCompra))
      (fun a b c hab hbc => by
        simp only [decide_eq_true_eq] at *
        omega)
      (fun a b => by
        simp only [Bool.or_eq_true, decide_eq_true_eq]
        omega)
      compras
    exact h.imp (fun hab => by simpa using hab)
  · exact List.mergeSort_perm compras _

/-- Claim C1: every purchase record the workflow appends to the store has
`valorTotal = quantidade × precoCompra`, where `precoCompra` is exactly the
price fetched for that purchase and `quantidade` exactly the parsed form
quantity; the workflow either leaves the store unchanged or appends exactly
that record. -/
theorem processarCompra_valorTotal (st : EstadoApp) (sb qb : String)
    (c : PrecosAtuais) (rB rW rO : ℚ) (agora : Nat) (f1 f2 f3 : Bool) :
    (processarCompra st sb qb c rB rW rO agora f1 f2 f3).1.compras
        = st.compras ∨
    (processarCompra st sb qb c rB rW rO agora f1 f2 f3).1.compras
        = st.compras ++
          [{ simbolo := simboloForm sb
             quantidade := quantidadeJS qb
             precoCompra := obterPrecoAtual c (simboloForm sb) rB rW rO
             valorTotal := JSNum.mul (quantidadeJS qb)
               (JSNum.num (obterPrecoAtual c (simboloForm sb) rB rW rO))
             dataCompra := agora }] := by
  cases f1 <;> cases f2 <;> cases f3 <;>
    by_cases hv :
      (decide (simboloForm sb = "") || JSNum.leZero (quantidadeJS qb)) = true <;>
    simp [processarCompra, salvarCompra, hv, JSNum.mul_comutativo]

/-- Claim C4 counterexample: the input "abc" parses to NaN (not a positive
integer), yet the submission is not rejected — the workflow runs to success
and persists a record. -/
theorem processarCompra_nan_prossegue :
    parseIntJS "abc" = none ∧
    (processarCompra ⟨[]⟩ "WTI" "abc" precosIniciais 0 0 0 0 false false
        false).2 = Resultado.sucesso ∧
    (processarCompra ⟨[]⟩ "WTI" "abc" precosIniciais 0 0 0 0 false false
        false).1.compras.length = 1 :=
  ⟨rfl, rfl, rfl⟩

/-- Claim C4 (amended): the submit handler rejects a submission (blocking
alert, nothing fetched or persisted, state returned unchanged) exactly when
the normalised symbol is empty or the parsed quantity is an integer ≤ 0;
non-numeric input parsing to NaN passes the `quantidade <= 0` check, because
that comparison is false for NaN. -/
theorem processarCompra_validacao_carac (st : EstadoApp) (sb qb : String)
    (c : PrecosAtuais) (rB rW rO : ℚ) (agora : Nat) (f1 f2 f3 : Bool) :
    processarCompra st sb qb c rB rW rO agora f1 f2 f3 =
        (st, Resultado.erroValidacao) ↔
      (simboloForm sb = "" ∨ ∃ k, parseIntJS qb = some k ∧ k ≤ 0) := by
  unfold processarCompra
  by_cases hv :
      (decide (simboloForm sb = "") || JSNum.leZero (quantidadeJS qb)) = true
  · rw [if_pos hv]
    simp only [Bool.or_eq_true, decide_eq_true_eq, leZero_quantidade_iff] at hv
    simpa using hv
  · rw [if_neg hv]
    have hR : ¬(simboloForm sb = "" ∨ ∃ k, parseIntJS qb = some k ∧ k ≤ 0) := by
      simpa [Bool.or_eq_true, decide_eq_true_eq, leZero_quantidade_iff] using hv
    simp only [hR, iff_false]
    intro hcontra
    have h2 := congrArg Prod.snd hcontra
    revert h2
    cases f1 <;> cases f3 <;> simp [salvarCompra]

/-- Claim C5: a submission with quantity 0 or an empty (after trimming)
symbol is rejected by validation: the state is returned unchanged and the
outcome is the blocking validation error, so no purchase record is
persisted. -/
theorem processarCompra_validacaoBloqueia (st : EstadoApp) (sb qb : String)
    (c : PrecosAtuais) (rB rW rO : ℚ) (agora : Nat) (f1 f2 f3 : Bool)
    (h : parseIntJS qb = some 0 ∨ simboloForm sb = "") :
    processarCompra st sb qb c rB rW rO agora f1 f2 f3 =
      (st, Resultado.erroValidacao) := by
  unfold processarCompra
  rcases h with h | h
  · have hz : JSNum.leZero (quantidadeJS qb) = true := by
      simp [quantidadeJS, h, JSNum.leZero]
    simp [hz]
  · simp [h]

theorem processarCompra_validacaoBloqueia_testemunha :
    (parseIntJS "0" = some 0 ∨ simboloForm "WTI" = "") ∧
    processarCompra ⟨[]⟩ "WTI" "0" precosIniciais 0 0 0 0 false false false =
      (⟨[]⟩, Resultado.erroValidacao) :=
  ⟨Or.inl (by decide),
   processarCompra_validacaoBloqueia ⟨[]⟩ "WTI" "0" precosIniciais 0 0 0 0
     false false false (Or.inl (by decide))⟩

/-- Claim C7 counterexample: when a step after `salvarCompra` throws (here
the suggestion step), the handler's catch shows the blocking error — success
is not reported — yet the purchase record is already persisted.  The claim's
"either fully persisted with success reported, or nothing persisted" is
false at this input. -/
theorem processarCompra_atomicidade_contraexemplo :
    (processarCompra ⟨[]⟩ "WTI" "10" precosIniciais 0 0 0 0 false false
        true).2 ≠ Resultado.sucesso ∧
    (processarCompra ⟨[]⟩ "WTI" "10" precosIniciais 0 0 0 0 false false
        true).1.compras.length = 1 :=
  ⟨by decide, rfl⟩

/-- Claim C7 (amended): after validation succeeds, a failing step surfaces
the blocking error in every case, but atomicity only holds for failures
before the save: if the price fetch rejects, nothing is persisted; if a step
after `salvarCompra` throws, the already-saved record remains persisted (no
rollback) while the error is still shown. -/
theorem processarCompra_semReversao (st : EstadoApp) (sb qb : String)
    (c : PrecosAtuais) (rB rW rO : ℚ) (agora : Nat) (f2 f3 : Bool)
    (hv : (decide (simboloForm sb = "") ||
      JSNum.leZero (quantidadeJS qb)) = false) :
    processarCompra st sb qb c rB rW rO agora true f2 f3 =
        (st, Resultado.erroProcessamento) ∧
    processarCompra st sb qb c rB rW rO agora false false true =
        (⟨st.compras ++
          [{ simbolo := simboloForm sb
             quantidade := quantidadeJS qb
             precoCompra := obterPrecoAtual c (simboloForm sb) rB rW rO
             valorTotal := JSNum.mul
               (JSNum.num (obterPrecoAtual c (simboloForm sb) rB rW rO))
               (quantidadeJS qb)
             dataCompra := agora }]⟩, Resultado.erroProcessamento) := by
  constructor <;> simp [processarCompra, salvarCompra, hv]

theorem processarCompra_semReversao_testemunha :
    ((decide (simboloForm "WTI" = "") ||
        JSNum.leZero (quantidadeJS "10")) = false) ∧
    (processarCompra ⟨[]⟩ "WTI" "10" precosIniciais 0 0 0 0 true false false =
        (⟨[]⟩, Resultado.erroProcessamento) ∧
     processarCompra ⟨[]⟩ "WTI" "10" precosIniciais 0 0 0 0 false false true =
        (⟨[] ++
          [{ simbolo := simboloForm "WTI"
             quantidade := quantidadeJS "10"
             precoCompra := obterPrecoAtual precosIniciais (simboloForm "WTI")
               0 0 0
             valorTotal := JSNum.mul
               (JSNum.num (obterPrecoAtual precosIniciais (simboloForm "WTI")
                 0 0 0))
               (quantidadeJS "10")
             dataCompra := 0 }]⟩, Resultado.erroProcessamento)) :=
  ⟨by decide,
   processarCompra_semReversao ⟨[]⟩ "WTI" "10" precosIniciais 0 0 0 0
     false false (by decide)⟩

/-- Claim C10: for a non-empty symbol outside the tracked set, the
purchase-price fetch falls back to exactly 80.0 instead of failing, and a
submission with such a symbol and a positive integer quantity persists a
purchase record at unit price 80 and succeeds — the symbol is never checked
against the tracked enumeration. -/
theorem obterPrecoAtual_simboloDesconhecido (st : EstadoApp) (sb qb : String)
    (c : PrecosAtuais) (rB rW rO : ℚ) (agora : Nat) (k : ℤ)
    (hne : simboloForm sb ≠ "")
    (hB : simboloForm sb ≠ "BRENT") (hW : simboloForm sb ≠ "WTI")
    (hO : simboloForm sb ≠ "OPEC")
    (hq : parseIntJS qb = some k) (hk : 0 < k) :
    obterPrecoAtual c (simboloForm sb) rB rW rO = 80 ∧
    processarCompra st sb qb c rB rW rO agora false false false =
      (⟨st.compras ++
        [{ simbolo := simboloForm sb
           quantidade := JSNum.num (k : ℚ)
           precoCompra := 80
           valorTotal := JSNum.mul (JSNum.num 80) (JSNum.num (k : ℚ))
           dataCompra := agora }]⟩, Resultado.sucesso) := by
  have hpreco : obterPrecoAtual c (simboloForm sb) rB rW rO = 80 := by
    unfold obterPrecoAtual jsOrPadrao
    simp only [hB, hW, hO, if_false]
    norm_num
  refine ⟨hpreco, ?_⟩
  have hquant : quantidadeJS qb = JSNum.num (k : ℚ) := by
    simp [quantidadeJS, hq]
  have hlz : JSNum.leZero (JSNum.num (k : ℚ)) = false := by
    simp only [JSNum.leZero, decide_eq_false_iff_not, not_le]
    exact_mod_cast hk
  simp [processarCompra, salvarCompra, hne, hquant, hlz, hpreco]

theorem obterPrecoAtual_simboloDesconhecido_testemunha :
    (simboloForm "URALS" ≠ "" ∧ simboloForm "URALS" ≠ "BRENT" ∧
     simboloForm "URALS" ≠ "WTI" ∧ simboloForm "URALS" ≠ "OPEC" ∧
     parseIntJS "5" = some 5 ∧ (0 : ℤ) < 5) ∧
    (obterPrecoAtual precosIniciais (simboloForm "URALS") 0 0 0 = 80 ∧
     processarCompra ⟨[]⟩ "URALS" "5" precosIniciais 0 0 0 0
         false false false =
       (⟨[] ++
         [{ simbolo := simboloForm "URALS"
            quantidade := JSNum.num ((5 : ℤ) : ℚ)
            precoCompra := 80
            valorTotal := JSNum.mul (JSNum.num 80) (JSNum.num ((5 : ℤ) : ℚ))
            dataCompra := 0 }]⟩, Resultado.sucesso)) :=
  ⟨⟨by decide, by decide, by decide, by decide, by decide, by decide⟩,
   obterPrecoAtual_simboloDesconhecido ⟨[]⟩ "URALS" "5" precosIniciais 0 0 0 0
     5 (by decide) (by decide) (by decide) (by decide) (by decide) (by decide)⟩

/-- Claim C2: on a simulation tick, every quote's new price lies within
±0.5% of that symbol's immediately prior stored price, for every random draw
in [0,1). -/
theorem simularDadosPrecos_limite (c : PrecosAtuais) (rB rW rO : ℚ)
    (hb : 0 < c.brent) (hw : 0 < c.wti) (ho : 0 < c.opec)
    (hB0 : 0 ≤ rB) (hB1 : rB < 1) (hW0 : 0 ≤ rW) (hW1 : rW < 1)
    (hO0 : 0 ≤ rO) (hO1 : rO < 1) :
    ∀ p ∈ simularDadosPrecos c rB rW rO,
      |p.preco - c.get p.simbolo| ≤ 5 / 1000 * c.get p.simbolo := by
  intro p hp
  simp only [simularDadosPrecos, List.mem_cons, List.not_mem_nil,
    or_false] at hp
  rcases hp with rfl | rfl | rfl
  · simpa [simularQuote, get_BRENT]
      using simularPrecoNovo_limite c.brent rB hb hB0 hB1
  · simpa [simularQuote, get_WTI]
      using simularPrecoNovo_limite c.wti rW hw hW0 hW1
  · simpa [simularQuote, get_OPEC]
      using simularPrecoNovo_limite c.opec rO ho hO0 hO1

theorem simularDadosPrecos_limite_testemunha :
    ((0 : ℚ) < 1 ∧ (0 : ℚ) ≤ 0 ∧ (0 : ℚ) < 1 ∧
      simularQuote "BRENT" "Brent Crude Oil" 1 0 ∈
        simularDadosPrecos ⟨1, 1, 1⟩ 0 0 0) ∧
    |(simularQuote "BRENT" "Brent Crude Oil" 1 0).preco -
        PrecosAtuais.get ⟨1, 1, 1⟩
          (simularQuote "BRENT" "Brent Crude Oil" 1 0).simbolo| ≤
      5 / 1000 * PrecosAtuais.get ⟨1, 1, 1⟩
          (simularQuote "BRENT" "Brent Crude Oil" 1 0).simbolo :=
  ⟨⟨zero_lt_one, le_refl 0, zero_lt_one, by simp [simularDadosPrecos]⟩,
   simularDadosPrecos_limite ⟨1, 1, 1⟩ 0 0 0 zero_lt_one zero_lt_one
     zero_lt_one (le_refl 0) zero_lt_one (le_refl 0) zero_lt_one (le_refl 0)
     zero_lt_one (simularQuote "BRENT" "Brent Crude Oil" 1 0)
     (by simp [simularDadosPrecos])⟩

/-- Claim C8: for every input and every draw in [0,1), the suggestion
generator returns the template sentence with a confidence percentage within
70–90 (in fact 70–89) and one of exactly the two trend labels "alta" and
"baixa" spliced in. -/
theorem simularRespostaIA_conteudo (simbolo : String) (quantidade : JSNum)
    (preco rT rC : ℚ) (h0 : 0 ≤ rC) (h1 : rC < 1) :
    (70 ≤ confiancaIA rC ∧ confiancaIA rC ≤ 90) ∧
    (tendenciaIA rT = "alta" ∨ tendenciaIA rT = "baixa") ∧
    simularRespostaIA simbolo quantidade preco rT rC =
      montarSugestao simbolo quantidade preco (confiancaIA rC)
        (tendenciaIA rT) := by
  refine ⟨?_, ?_, rfl⟩
  · have hf0 : (0 : ℤ) ≤ ⌊rC * 20⌋ :=
      Int.floor_nonneg.mpr (mul_nonneg h0 (by norm_num))
    have hf1 : ⌊rC * 20⌋ < 20 := by
      rw [Int.floor_lt]
      push_cast
      linarith
    unfold confiancaIA
    omega
  · unfold tendenciaIA
    by_cases h : (0.5 : ℚ) < rT
    · exact Or.inl (if_pos h)
    · exact Or.inr (if_neg h)

theorem simularRespostaIA_conteudo_testemunha :
    ((0 : ℚ) ≤ 0 ∧ (0 : ℚ) < 1) ∧
    ((70 ≤ confiancaIA 0 ∧ confiancaIA 0 ≤ 90) ∧
     (tendenciaIA 0 = "alta" ∨ tendenciaIA 0 = "baixa") ∧
     simularRespostaIA "WTI" (JSNum.num 10) 82 0 0 =
       montarSugestao "WTI" (JSNum.num 10) 82 (confiancaIA 0)
         (tendenciaIA 0)) :=
  ⟨⟨le_refl 0, zero_lt_one⟩,
   simularRespostaIA_conteudo "WTI" (JSNum.num 10) 82 0 0 (le_refl 0)
     zero_lt_one⟩
